import Mathlib

/-!
Verification of the metric-formatting and error types of the cadence
statsd client (src/types.rs, src/lib.rs).

The embedding mirrors the Rust source: each metric struct stores the
fully formatted wire line (field `repr : String`) built at construction
time by `format!("{}.{}:{}|suffix", prefix, key, value)`, which is plain
string concatenation.  Rust's `i64`/`u64` are modelled as `Int`/`Nat`;
their `Display` rendering (decimal, with a leading minus sign for
negative `i64`) coincides with Lean's `toString` on `Int`/`Nat`.
-/

namespace Cadence

/-- Trait `AsMetricStr` from src/types.rs: metrics expose their statsd
metric string representation. -/
class AsMetricStr (α : Type) where
  as_metric_str : α → String

export AsMetricStr (as_metric_str)

/-- `Counter` from src/types.rs: stores the formatted line. -/
structure Counter where
  repr : String
deriving DecidableEq

/-- `Counter::new(prefix, key, count)` builds
`format!("{}.{}:{}|c", prefix, key, count)` with `count : i64`. -/
def Counter.new (pfx key : String) (count : Int) : Counter :=
  ⟨pfx ++ "." ++ key ++ ":" ++ toString count ++ "|c"⟩

instance : AsMetricStr Counter := ⟨Counter.repr⟩

/-- `Timer` from src/types.rs. -/
structure Timer where
  repr : String
deriving DecidableEq

/-- `Timer::new(prefix, key, time)` builds
`format!("{}.{}:{}|ms", prefix, key, time)` with `time : u64`. -/
def Timer.new (pfx key : String) (time : Nat) : Timer :=
  ⟨pfx ++ "." ++ key ++ ":" ++ toString time ++ "|ms"⟩

instance : AsMetricStr Timer := ⟨Timer.repr⟩

/-- `Gauge` from src/types.rs. -/
structure Gauge where
  repr : String
deriving DecidableEq

/-- `Gauge::new(prefix, key, value)` builds
`format!("{}.{}:{}|g", prefix, key, value)` with `value : u64`. -/
def Gauge.new (pfx key : String) (value : Nat) : Gauge :=
  ⟨pfx ++ "." ++ key ++ ":" ++ toString value ++ "|g"⟩

instance : AsMetricStr Gauge := ⟨Gauge.repr⟩

/-- `Meter` from src/types.rs. -/
structure Meter where
  repr : String
deriving DecidableEq

/-- `Meter::new(prefix, key, value)` builds
`format!("{}.{}:{}|m", prefix, key, value)` with `value : u64`. -/
def Meter.new (pfx key : String) (value : Nat) : Meter :=
  ⟨pfx ++ "." ++ key ++ ":" ++ toString value ++ "|m"⟩

instance : AsMetricStr Meter := ⟨Meter.repr⟩

/-- `ErrorKind` from src/types.rs: the categories an error from this
library falls into. -/
inductive ErrorKind where
  | InvalidInput
  | IoError
deriving DecidableEq

/-- Model of `std::io::Error` (external to the repository): only its
existence and payload matter to `MetricError`. -/
structure IoErr where
  message : String

/-- `ErrorRepr` from src/types.rs. -/
inductive ErrorRepr where
  | WithDescription (kind : ErrorKind) (desc : String)
  | IoError (err : IoErr)

/-- `MetricError` from src/types.rs. -/
structure MetricError where
  repr : ErrorRepr

/-- `MetricError::kind` from src/types.rs. -/
def MetricError.kind (e : MetricError) : ErrorKind :=
  match e.repr with
  | ErrorRepr.IoError _ => ErrorKind.IoError
  | ErrorRepr.WithDescription k _ => k

/-- `impl From<io::Error> for MetricError` from src/types.rs. -/
def MetricError.fromIoErr (err : IoErr) : MetricError :=
  ⟨ErrorRepr.IoError err⟩

/-- `impl From<(ErrorKind, &'static str)> for MetricError` from
src/types.rs. -/
def MetricError.fromPair (kind : ErrorKind) (desc : String) : MetricError :=
  ⟨ErrorRepr.WithDescription kind desc⟩

/-- `DEFAULT_PORT` from src/lib.rs: `pub const DEFAULT_PORT: u16 = 8125;`.
Modelled as a `Nat` known to fit in `u16`. -/
def DEFAULT_PORT : Nat := 8125

/-- C1: for every prefix `P`, key `K` and signed integer `N` (negative
included), `Counter::new(P, K, N).as_metric_str()` is exactly the
concatenation `P ++ "." ++ K ++ ":" ++ toString N ++ "|c"`; in
particular the end-to-end scenarios `("my.app", "hits", 1)` and
`("my.app", "errors", -3)` yield `"my.app.hits:1|c"` and
`"my.app.errors:-3|c"`. -/
theorem counter_as_metric_str_eq :
    (∀ (pfx key : String) (n : Int),
      as_metric_str (Counter.new pfx key n) =
        pfx ++ "." ++ key ++ ":" ++ toString n ++ "|c")
    ∧ as_metric_str (Counter.new "my.app" "hits" 1) = "my.app.hits:1|c"
    ∧ as_metric_str (Counter.new "my.app" "errors" (-3)) =
        "my.app.errors:-3|c" := by
  refine ⟨fun pfx key n => rfl, by decide, by decide⟩

/-- C2: `Timer::new`, `Gauge::new` and `Meter::new` each render
`P.K:V` followed by exactly their kind's suffix: `|ms`, `|g`, `|m`;
concrete scenarios from the spec included. -/
theorem timer_gauge_meter_as_metric_str_eq :
    (∀ (pfx key : String) (v : Nat),
      as_metric_str (Timer.new pfx key v) =
          pfx ++ "." ++ key ++ ":" ++ toString v ++ "|ms"
      ∧ as_metric_str (Gauge.new pfx key v) =
          pfx ++ "." ++ key ++ ":" ++ toString v ++ "|g"
      ∧ as_metric_str (Meter.new pfx key v) =
          pfx ++ "." ++ key ++ ":" ++ toString v ++ "|m")
    ∧ as_metric_str (Timer.new "my.app" "req.latency" 42) =
        "my.app.req.latency:42|ms"
    ∧ as_metric_str (Gauge.new "my.app" "queue.depth" 7) =
        "my.app.queue.depth:7|g"
    ∧ as_metric_str (Meter.new "my.app" "test.meter" 5) =
        "my.app.test.meter:5|m" := by
  refine ⟨fun pfx key v => ⟨rfl, rfl, rfl⟩, by decide, by decide, by decide⟩

/-- C3 counterexample: constructing a counter metric with the empty
prefix succeeds (`Counter::new` is total and performs no validation)
and yields the malformed wire line `".key:1|c"`, which begins with
`"."`. -/
theorem empty_prefix_counter_succeeds :
    as_metric_str (Counter.new "" "key" 1) = ".key:1|c"
    ∧ (".key:1|c").data.head? = some '.' := by
  exact ⟨by decide, by decide⟩

/-- C3 amended: at the level of the visible code, empty-prefix metric
construction does NOT fail: for every key `K` and value `N`,
`Counter::new("", K, N)` succeeds and its metric string begins with
`"."` (it is `"." ++ K ++ ":" ++ N ++ "|c"`); no `InvalidInput` error
is produced by the metric constructors. -/
theorem empty_prefix_counter_malformed (key : String) (n : Int) :
    as_metric_str (Counter.new "" key n) =
      "." ++ (key ++ (":" ++ (toString n ++ "|c"))) := by
  show ("" : String) ++ "." ++ key ++ ":" ++ toString n ++ "|c" = _
  apply String.ext
  simp [String.data_append]

/-- C4: every `MetricError` has kind `InvalidInput` or `IoError` (the
two are distinct); an error built from an `io::Error` has kind
`IoError`; an error built from a `(kind, description)` pair has that
kind. -/
theorem metric_error_kind_taxonomy :
    (∀ e : MetricError,
      e.kind = ErrorKind.InvalidInput ∨ e.kind = ErrorKind.IoError)
    ∧ (∀ err : IoErr, (MetricError.fromIoErr err).kind = ErrorKind.IoError)
    ∧ (∀ (k : ErrorKind) (d : String), (MetricError.fromPair k d).kind = k)
    ∧ ErrorKind.InvalidInput ≠ ErrorKind.IoError := by
  refine ⟨fun e => ?_, fun err => rfl, fun k d => rfl, by decide⟩
  cases hk : e.kind
  · exact Or.inl rfl
  · exact Or.inr rfl

/-- C5: counter values are signed: a negative `N` is accepted by
`Counter::new` and rendered with a leading minus sign.  Timer, gauge
and meter constructors take `u64` (here `Nat`) values only, so the
rendered value is the decimal form of a non-negative integer. -/
theorem counter_signed_others_unsigned :
    (∀ (pfx key : String) (n : Int), n < 0 →
      as_metric_str (Counter.new pfx key n) =
        pfx ++ "." ++ key ++ ":" ++ ("-" ++ Nat.repr n.natAbs) ++ "|c")
    ∧ (∀ (pfx key : String) (v : Nat),
      ∃ m : Nat,
        as_metric_str (Timer.new pfx key v) =
            pfx ++ "." ++ key ++ ":" ++ Nat.repr m ++ "|ms"
        ∧ as_metric_str (Gauge.new pfx key v) =
            pfx ++ "." ++ key ++ ":" ++ Nat.repr m ++ "|g"
        ∧ as_metric_str (Meter.new pfx key v) =
            pfx ++ "." ++ key ++ ":" ++ Nat.repr m ++ "|m") := by
  constructor
  · intro pfx key n h
    cases n with
    | ofNat m => exact absurd h (Int.ofNat_nonneg m).not_lt
    | negSucc m => rfl
  · intro pfx key v
    exact ⟨v, rfl, rfl, rfl⟩

/-- Witness for C5 at `pfx = "my.app"`, `key = "errors"`, `n = -3`. -/
theorem counter_signed_others_unsigned_witness :
    as_metric_str (Counter.new "my.app" "errors" (-3)) =
      "my.app" ++ "." ++ "errors" ++ ":" ++
        ("-" ++ Nat.repr (Int.natAbs (-3))) ++ "|c" :=
  counter_signed_others_unsigned.1 "my.app" "errors" (-3) (by decide)

/-- C6: no escaping and no validation: construction is total and the
output is the character-for-character concatenation of the inputs into
the template, shown at the level of character lists; a key containing
a colon, pipes and a newline passes through verbatim. -/
theorem no_escaping_literal_concat :
    (∀ (pfx key : String) (n : Int),
      (as_metric_str (Counter.new pfx key n)).data =
        pfx.data ++ '.' :: key.data ++ ':' :: (toString n).data ++ "|c".data)
    ∧ (∀ (pfx key : String) (v : Nat),
      (as_metric_str (Meter.new pfx key v)).data =
        pfx.data ++ '.' :: key.data ++ ':' :: (toString v).data ++ "|m".data)
    ∧ as_metric_str (Counter.new "a:b" "c|d\ne" 1) = "a:b.c|d\ne:1|c" := by
  refine ⟨fun pfx key n => ?_, fun pfx key v => ?_, by decide⟩
  · show (pfx ++ "." ++ key ++ ":" ++ toString n ++ "|c").data = _
    simp [String.data_append]
  · show (pfx ++ "." ++ key ++ ":" ++ toString v ++ "|m").data = _
    simp [String.data_append]

/-- C7: metric formatting is pure and deterministic: equal
`(prefix, key, value)` arguments give equal `as_metric_str` results
for each of the four constructors. -/
theorem formatting_deterministic
    (p₁ p₂ k₁ k₂ : String) (n₁ n₂ : Int) (u₁ u₂ : Nat)
    (hp : p₁ = p₂) (hk : k₁ = k₂) (hn : n₁ = n₂) (hu : u₁ = u₂) :
    as_metric_str (Counter.new p₁ k₁ n₁) = as_metric_str (Counter.new p₂ k₂ n₂)
    ∧ as_metric_str (Timer.new p₁ k₁ u₁) = as_metric_str (Timer.new p₂ k₂ u₂)
    ∧ as_metric_str (Gauge.new p₁ k₁ u₁) = as_metric_str (Gauge.new p₂ k₂ u₂)
    ∧ as_metric_str (Meter.new p₁ k₁ u₁) = as_metric_str (Meter.new p₂ k₂ u₂) := by
  subst hp hk hn hu
  exact ⟨rfl, rfl, rfl, rfl⟩

/-- Witness for C7 at concrete equal arguments. -/
theorem formatting_deterministic_witness :
    as_metric_str (Counter.new "my.app" "hits" 1) =
        as_metric_str (Counter.new "my.app" "hits" 1)
    ∧ as_metric_str (Timer.new "my.app" "hits" 2) =
        as_metric_str (Timer.new "my.app" "hits" 2)
    ∧ as_metric_str (Gauge.new "my.app" "hits" 2) =
        as_metric_str (Gauge.new "my.app" "hits" 2)
    ∧ as_metric_str (Meter.new "my.app" "hits" 2) =
        as_metric_str (Meter.new "my.app" "hits" 2) :=
  formatting_deterministic "my.app" "my.app" "hits" "hits" 1 1 2 2
    rfl rfl rfl rfl

/-- C8: `DEFAULT_PORT` is the constant 8125 and fits in `u16`. -/
theorem default_port_value : DEFAULT_PORT = 8125 ∧ DEFAULT_PORT < 2 ^ 16 := by
  decide

/-- C9: a metric is immutable after construction: `as_metric_str` is a
pure projection returning the stored representation unchanged (the
public interface offers no mutating operation), and that stored
representation is exactly the string built at construction time. -/
theorem metric_immutable_after_construction :
    (∀ c : Counter, as_metric_str c = c.repr)
    ∧ (∀ t : Timer, as_metric_str t = t.repr)
    ∧ (∀ g : Gauge, as_metric_str g = g.repr)
    ∧ (∀ m : Meter, as_metric_str m = m.repr)
    ∧ (∀ (pfx key : String) (n : Int),
        (Counter.new pfx key n).repr =
          pfx ++ "." ++ key ++ ":" ++ toString n ++ "|c") := by
  exact ⟨fun c => rfl, fun t => rfl, fun g => rfl, fun m => rfl,
    fun pfx key n => rfl⟩

/-- C10: counter equality is exactly equality of the formatted string,
and the `(prefix, key)` encoding is not injective: the distinct input
pairs `("a.b", "c")` and `("a", "b.c")` with the same value produce
equal `Counter` values. -/
theorem counter_eq_iff_metric_str_eq :
    (∀ c₁ c₂ : Counter,
      c₁ = c₂ ↔ as_metric_str c₁ = as_metric_str c₂)
    ∧ Counter.new "a.b" "c" 1 = Counter.new "a" "b.c" 1
    ∧ ("a.b", "c") ≠ (("a", "b.c") : String × String) := by
  refine ⟨fun c₁ c₂ => ⟨fun h => by rw [h], fun h => ?_⟩, by decide, by decide⟩
  cases c₁
  cases c₂
  exact congrArg Counter.mk h

end Cadence
